import Mathlib

/-!
Shallow embedding of the value-marshalling bridge in
src/lib/lvelements/src/value.cpp (classes lv::el::Value and lv::el::ScopedValue,
and the generic convertFromV8 conversion layer).

Modelling choices:
- Guest-engine handles (v8::Local of v8::Value) become the inductive type V8.
  The engine number type (C++ double) is modelled as the rationals; no
  floating-point arithmetic occurs in this core, numbers are only stored,
  classified and compared.
- Object, Callable and Element wrappers are abstract: an Object or Callable
  wraps one handle, an Element is identified by a natural number; a null
  Element pointer is Option.none.
- Errors thrown with THROW_EXCEPTION become the Except monad over Err.
- Heap ownership (the Object and Callable payloads of Value, and the
  handleRecord and refCount pair of ScopedValue) is modelled by explicit
  association-list heaps keyed by allocation addresses.
-/

namespace lvel

/-- Error kinds of the bridge, named after section 7 of the design: a
TypeMismatch carries the operation-specific discriminant of the message. -/
inductive Err where
  | typeMismatch (op : String)
  | invalidValueType (op : String)
  | invalidCast (op : String)
  | invalidElement (op : String)
deriving DecidableEq

/-- Discriminant of a persistent Value, enum Value.Stored in the source. -/
inductive Stored where
  | boolean
  | integer
  | double
  | object
  | callable
  | element
deriving DecidableEq

/-- Runtime shape of a guest-engine handle (a v8 Local of Value). An
elementObject is an engine object carrying exactly one internal field that
records the native Element pointer; plainObject, array, function,
arrayBuffer and stringObject are the other object shapes; string, number,
boolean, null and undefined are primitive shapes. -/
inductive V8 where
  | undefined
  | vnull
  | boolean (b : Bool)
  | number (n : ℚ)
  | string (s : String)
  | stringObject (s : String)
  | functionObject (f : Nat)
  | arrayBuffer (a : Nat)
  | array (a : Nat)
  | plainObject (o : Nat)
  | elementObject (e : Nat)
deriving DecidableEq

/-- Wrapper Object: owns one engine handle (handle accessor data()). -/
structure Object where
  data : V8
deriving DecidableEq

/-- Wrapper Callable: owns one engine handle (handle accessor data()). -/
structure Callable where
  data : V8
deriving DecidableEq

/-- Payload union Value.Data of the source: Boolean and Integer store an
int64, Double stores a number, Object and Callable store an owned wrapper
copy, Element stores a raw nullable pointer. -/
inductive ValueData where
  | asInteger (i : ℤ)
  | asNumber (n : ℚ)
  | asObject (o : Object)
  | asCallable (c : Callable)
  | asElement (e : Option Nat)
deriving DecidableEq

/-- Persistent value: the tagged union of the source, with the tag always
matching the payload slot (every constructor of the source establishes this
and every operation preserves it). -/
inductive Value where
  | boolean (i : ℤ)
  | integer (i : ℤ)
  | double (n : ℚ)
  | object (o : Object)
  | callable (c : Callable)
  | element (e : Option Nat)
deriving DecidableEq

namespace Value

/-- Tag of a Value, field m_type in the source. -/
def type : Value → Stored
  | .boolean _ => .boolean
  | .integer _ => .integer
  | .double _ => .double
  | .object _ => .object
  | .callable _ => .callable
  | .element _ => .element

/-- Payload of a Value, field m_data in the source. -/
def mdata : Value → ValueData
  | .boolean i => .asInteger i
  | .integer i => .asInteger i
  | .double n => .asNumber n
  | .object o => .asObject o
  | .callable c => .asCallable c
  | .element e => .asElement e

/-- Default constructor Value(): data nullptr, type Element. -/
def defaultValue : Value := .element none

/-- Constructor Value(bool v): stores (Int64)v under the Boolean tag. -/
def ofBool (b : Bool) : Value := .boolean (if b then 1 else 0)

/-- Constructor Value(Int32 v): stores (Int64)v under the Integer tag; the
argument is a 32-bit value in the source. -/
def ofInt32 (i : ℤ) : Value := .integer i

/-- Constructor Value(Int64 v): stores v under the Integer tag. -/
def ofInt64 (i : ℤ) : Value := .integer i

/-- Constructor Value(Number v): stores v under the Double tag. -/
def ofNumber (n : ℚ) : Value := .double n

/-- Constructor Value(Object v). -/
def ofObject (o : Object) : Value := .object o

/-- Constructor Value(Callable v). -/
def ofCallable (c : Callable) : Value := .callable c

/-- Constructor Value(Element* v); the pointer may be null (none). -/
def ofElement (e : Option Nat) : Value := .element e

/-- Truncating conversion of an int64 value to int32, the C style cast
(Value.Int32)(m_data.asInteger) of the source: two-complement wrap into
the interval from -2^31 to 2^31 - 1. -/
def wrap32 (i : ℤ) : ℤ := (i + 2 ^ 31) % 2 ^ 32 - 2 ^ 31

/-- Value.isNull: true iff the tag is Element and the pointer is null. -/
def isNull : Value → Bool
  | .element none => true
  | _ => false

/-- Value.asBool: fails with TypeMismatch unless the tag is Boolean,
otherwise returns (bool)(m_data.asInteger). -/
def asBool : Value → Except Err Bool
  | .boolean i => .ok (i != 0)
  | _ => .error (.typeMismatch "Boolean")

/-- Value.asInt32: fails with TypeMismatch unless the tag is Integer,
otherwise returns (Int32)(m_data.asInteger), a truncating cast. -/
def asInt32 : Value → Except Err ℤ
  | .integer i => .ok (wrap32 i)
  | _ => .error (.typeMismatch "Int32")

/-- Value.asInt64: fails with TypeMismatch unless the tag is Integer,
otherwise returns the stored int64. -/
def asInt64 : Value → Except Err ℤ
  | .integer i => .ok i
  | _ => .error (.typeMismatch "Int64")

/-- Value.asNumber: returns the Double payload, or the Integer payload
widened to a number; any other tag fails with TypeMismatch. -/
def asNumber : Value → Except Err ℚ
  | .double n => .ok n
  | .integer i => .ok (i : ℚ)
  | _ => .error (.typeMismatch "Number")

/-- Value.asObject: fails with TypeMismatch unless the tag is Object. -/
def asObject : Value → Except Err Object
  | .object o => .ok o
  | _ => .error (.typeMismatch "Object")

/-- Value.asCallable: fails with TypeMismatch unless the tag is Callable. -/
def asCallable : Value → Except Err Callable
  | .callable c => .ok c
  | _ => .error (.typeMismatch "Callable")

/-- Value.asElement: fails with TypeMismatch unless the tag is Element. -/
def asElement : Value → Except Err (Option Nat)
  | .element e => .ok e
  | _ => .error (.typeMismatch "Element")

/-- Value.operator==: tags must be equal, then the payloads are compared
per tag: scalars by value, Object and Callable by their own equality
(handle equality), Element by pointer identity. -/
def veq (a b : Value) : Bool :=
  if a.type ≠ b.type then false
  else
    match a, b with
    | .boolean i, .boolean j => i == j
    | .integer i, .integer j => i == j
    | .double m, .double n => m == n
    | .object o, .object p => o == p
    | .callable c, .callable d => c == d
    | .element e, .element f => e == f
    | _, _ => false

end Value

namespace V8

/-- Shape test IsNull of the engine: true only for the null handle, not for
undefined. -/
def isNullV8 : V8 → Bool
  | .vnull => true
  | _ => false

/-- Shape test IsNullOrUndefined of the engine. -/
def isNullOrUndefined : V8 → Bool
  | .vnull => true
  | .undefined => true
  | _ => false

/-- Shape test IsBoolean of the engine. -/
def isBooleanV8 : V8 → Bool
  | .boolean _ => true
  | _ => false

/-- Shape test IsInt32 of the engine: a number whose value is an integer
representable in 32 signed bits. -/
def isInt32V8 : V8 → Bool
  | .number n => n.den == 1 && -2 ^ 31 ≤ n.num && n.num < 2 ^ 31
  | _ => false

/-- Shape test IsNumber of the engine. -/
def isNumberV8 : V8 → Bool
  | .number _ => true
  | _ => false

/-- Shape test IsString of the engine: primitive strings only. -/
def isStringV8 : V8 → Bool
  | .string _ => true
  | _ => false

/-- Shape test IsStringObject of the engine: boxed string objects. -/
def isStringObjectV8 : V8 → Bool
  | .stringObject _ => true
  | _ => false

/-- Shape test IsFunction of the engine. -/
def isFunctionV8 : V8 → Bool
  | .functionObject _ => true
  | _ => false

/-- Shape test IsArrayBuffer of the engine. -/
def isArrayBufferV8 : V8 → Bool
  | .arrayBuffer _ => true
  | _ => false

/-- Shape test IsArray of the engine. -/
def isArrayV8 : V8 → Bool
  | .array _ => true
  | _ => false

/-- Shape test IsObject of the engine: every object shape, including boxed
strings, functions, arrays, array buffers and element wrappers; primitives
are not objects. -/
def isObjectV8 : V8 → Bool
  | .stringObject _ => true
  | .functionObject _ => true
  | .arrayBuffer _ => true
  | .array _ => true
  | .plainObject _ => true
  | .elementObject _ => true
  | _ => false

/-- InternalFieldCount of an object handle: an element wrapper carries
exactly one internal field holding the native Element pointer; every other
shape has none. -/
def internalFieldCount : V8 → Nat
  | .elementObject _ => 1
  | _ => 0

/-- Engine truthiness BooleanValue: the ToBoolean coercion of the guest
language on the modelled shapes (objects are always truthy). -/
def booleanValue : V8 → Bool
  | .undefined => false
  | .vnull => false
  | .boolean b => b
  | .number n => n != 0
  | .string s => s != ""
  | _ => true

/-- Integral part of a rational, rounding toward zero, as the ToInt32
coercion does before wrapping. -/
def ratTrunc (n : ℚ) : ℤ := if n < 0 then -(Int.floor (-n)) else Int.floor n

/-- Engine coercion ToInt32 followed by Value(): truncate toward zero and
wrap into 32 signed bits for numbers; the boolean and null and undefined
primitives coerce through their numeric value; other shapes are modelled
as 0 (they do not occur on the paths this development reasons about). -/
def toInt32V8 : V8 → ℤ
  | .number n => Value.wrap32 (ratTrunc n)
  | .boolean b => if b then 1 else 0
  | _ => 0

/-- Engine coercion ToNumber followed by Value(), on the modelled shapes:
numbers are returned unchanged, booleans and null coerce to their numeric
value; other shapes are modelled as 0 (they do not occur on the paths this
development reasons about). -/
def toNumberV8 : V8 → ℚ
  | .number n => n
  | .boolean b => if b then 1 else 0
  | _ => 0

end V8

/-- Modelled from the spec: ElementPrivate.localObject is repository code
outside src. Construction from an Element pointer looks up the engine
object previously associated with the element via the collaborator
registry; a null pointer yields an undefined handle. -/
def localObject : Option Nat → V8
  | none => .undefined
  | some e => .elementObject e

/-- Modelled from the spec: ElementPrivate.elementFromObject is repository
code outside src. It unwraps the opaque pointer recorded in the single
internal marker slot of an element wrapper as a native Element pointer,
and fails with InvalidCast when the marker slot is absent. -/
def elementFromObject : V8 → Except Err (Option Nat)
  | .elementObject e => .ok (some e)
  | _ => .error (.invalidCast "Element")

/-- Guest integer constructor v8 Integer New: its argument type is int32,
so the int64 passed at the Integer case of the ScopedValue constructor is
truncated; the handle produced is a number. -/
def v8IntegerNew (i : ℤ) : V8 := .number ((Value.wrap32 i : ℤ) : ℚ)

namespace Scoped

/-- ScopedValue.isNull: IsNull on the wrapped handle. -/
def isNull (h : V8) : Bool := h.isNullV8

/-- ScopedValue.isBool: IsBoolean on the wrapped handle. -/
def isBool (h : V8) : Bool := h.isBooleanV8

/-- ScopedValue.isInt: IsInt32 on the wrapped handle. -/
def isInt (h : V8) : Bool := h.isInt32V8

/-- ScopedValue.isNumber: IsNumber on the wrapped handle. -/
def isNumber (h : V8) : Bool := h.isNumberV8

/-- ScopedValue.isString: IsStringObject or IsString on the wrapped handle. -/
def isString (h : V8) : Bool := h.isStringObjectV8 || h.isStringV8

/-- ScopedValue.isCallable: IsFunction on the wrapped handle. -/
def isCallable (h : V8) : Bool := h.isFunctionV8

/-- ScopedValue.isBuffer: IsArrayBuffer on the wrapped handle. -/
def isBuffer (h : V8) : Bool := h.isArrayBufferV8

/-- ScopedValue.isObject: IsObject on the wrapped handle. -/
def isObject (h : V8) : Bool := h.isObjectV8

/-- ScopedValue.isArray: IsArray on the wrapped handle. -/
def isArray (h : V8) : Bool := h.isArrayV8

/-- ScopedValue.isElement: the wrapped handle is object shaped and its
internal field count is exactly one. -/
def isElement (h : V8) : Bool := h.isObjectV8 && h.internalFieldCount == 1

/-- ScopedValue.toBool: engine truthiness of the wrapped handle. -/
def toBool (h : V8) : Bool := h.booleanValue

/-- ScopedValue.toInt32: engine ToInt32 coercion of the wrapped handle. -/
def toInt32 (h : V8) : ℤ := h.toInt32V8

/-- ScopedValue.toNumber: engine ToNumber coercion of the wrapped handle. -/
def toNumber (h : V8) : ℚ := h.toNumberV8

/-- ScopedValue.toInt64: engine ToNumber coercion cast to int64. -/
def toInt64 (h : V8) : ℤ := V8.ratTrunc h.toNumberV8

/-- ScopedValue.toCallable: wraps the handle cast to a function. -/
def toCallable (h : V8) : Callable := ⟨h⟩

/-- ScopedValue.toObject: a handle that is string shaped but not object
shaped is boxed into a string object wrapper; otherwise the handle is cast
to an object, and if its internal field count is one (an element wrapper)
the conversion fails, else the object wrapper is returned. -/
def toObject (h : V8) : Except Err Object :=
  if isString h && !isObject h then
    match h with
    | .string s => .ok ⟨.stringObject s⟩
    | _ => .ok ⟨h⟩
  else
    if h.internalFieldCount == 1 then
      .error (.typeMismatch "Object of Element type")
    else
      .ok ⟨h⟩

/-- ScopedValue.toElement: a null or undefined handle yields the null
pointer; otherwise the handle is cast to an object and the element pointer
is unwrapped from the marker slot, failing with InvalidCast when the slot
is absent. -/
def toElement (h : V8) : Except Err (Option Nat) :=
  if h.isNullOrUndefined then .ok none
  else elementFromObject h

/-- ScopedValue.toValue: classify the handle shape in order (bool, int32,
number, string, element, callable, object) and build the best matching
persistent Value; an unmatched shape yields the default null Value. -/
def toValue (h : V8) : Except Err Value :=
  if isBool h then .ok (Value.ofBool (toBool h))
  else if isInt h then .ok (Value.ofInt32 (toInt32 h))
  else if isNumber h then .ok (Value.ofNumber (toNumber h))
  else if isString h then (toObject h).map Value.ofObject
  else if isElement h then (toElement h).map Value.ofElement
  else if isCallable h then .ok (Value.ofCallable (toCallable h))
  else if isObject h then (toObject h).map Value.ofObject
  else .ok Value.defaultValue

/-- ScopedValue constructor from an Element pointer: the handle associated
with the element through the registry, undefined for a null pointer. -/
def fromElement (e : Option Nat) : V8 := localObject e

/-- ScopedValue constructor from a persistent Value, dispatching on the
tag: Boolean, Integer (through the truncating guest integer constructor),
Double, Object and Callable mirror the payload; a null Element yields the
undefined handle and a non-null Element the registry object of the
element. The default branch of the source switch fails with
InvalidValueType, but every tag of the enum is covered. -/
def fromValue : Value → V8
  | .boolean i => .boolean (i != 0)
  | .integer i => v8IntegerNew i
  | .double n => .number n
  | .object o => o.data
  | .callable c => c.data
  | .element none => .undefined
  | .element (some e) => localObject (some e)

end Scoped

/-- Generic conversion convertFromV8 for T equal to Element pointer. The
first component is the list of errors reported through the engine
error-reporting channel Engine.throwError during the call (modelled from
the spec: Engine.throwError is repository code outside src; it reports the
error through the engine channel and returns control to its caller). The
second component is the native result channel: an error there would mean
an exception unwinding to the native caller. A null or undefined handle
yields the null pointer; a handle without exactly one internal field
reports an InvalidElement error through the engine channel and returns the
null pointer; an element wrapper yields the pointer in its marker slot.
The final branch is unreachable: only an element wrapper has internal
field count one. -/
def convertFromV8Element (h : V8) : List Err × Except Err (Option Nat) :=
  if h.isNullOrUndefined then ([], .ok none)
  else if h.internalFieldCount != 1 then
    ([.invalidElement "Given value is not an Element"], .ok none)
  else
    match h with
    | .elementObject e => ([], .ok (some e))
    | _ => ([], .ok none)

/-- Lookup in an association list keyed by allocation addresses. -/
def lookupKey {β : Type} : List (Nat × β) → Nat → Option β
  | [], _ => none
  | (k, v) :: t, k' => if k = k' then some v else lookupKey t k'

/-- Update every binding of a key in an association list. -/
def setKey {β : Type} : List (Nat × β) → Nat → β → List (Nat × β)
  | [], _, _ => []
  | (a, b) :: t, k, v => (if a = k then (a, v) else (a, b)) :: setKey t k v

/-- Remove every binding of a key from an association list. -/
def removeKey {β : Type} : List (Nat × β) → Nat → List (Nat × β)
  | [], _ => []
  | (a, b) :: t, k => if a = k then removeKey t k else (a, b) :: removeKey t k

/-- Heap state shared by a family of ScopedValue instances: the allocated
LocalValuePrivate handle records and the allocated reference counters,
keyed by their addresses. -/
structure SVState where
  recs : List (Nat × V8)
  refs : List (Nat × ℤ)
deriving DecidableEq

/-- One ScopedValue instance: its own object address and the addresses of
its handle record (field m_d) and reference counter (field m_ref). -/
structure SVRef where
  addr : Nat
  m_d : Nat
  m_ref : Nat
deriving DecidableEq

/-- ScopedValue copy constructor: the copy shares the handle record and
counter addresses of the original and the shared counter is incremented. -/
def svCopy (st : SVState) (v : SVRef) (newAddr : Nat) : SVState × SVRef :=
  (⟨st.recs, setKey st.refs v.m_ref ((lookupKey st.refs v.m_ref).getD 0 + 1)⟩,
   ⟨newAddr, v.m_d, v.m_ref⟩)

/-- ScopedValue destructor: decrement the shared counter; when it reaches
zero, free the counter and the handle record. -/
def svDestroy (st : SVState) (v : SVRef) : SVState :=
  let c := (lookupKey st.refs v.m_ref).getD 0 - 1
  if c = 0 then ⟨removeKey st.recs v.m_d, removeKey st.refs v.m_ref⟩
  else ⟨st.recs, setKey st.refs v.m_ref c⟩

/-- ScopedValue copy assignment: when the target and the source are the
same object (the guard on the addresses of the two sides), nothing
happens; otherwise the target releases its share as the destructor does,
then adopts the record and counter of the source and increments them. -/
def svAssign (st : SVState) (tgt src : SVRef) : SVState × SVRef :=
  if tgt.addr ≠ src.addr then
    let st1 := svDestroy st tgt
    (⟨st1.recs, setKey st1.refs src.m_ref ((lookupKey st1.refs src.m_ref).getD 0 + 1)⟩,
     ⟨tgt.addr, src.m_d, src.m_ref⟩)
  else (st, tgt)

/-- Iterated destruction of n instances of one ScopedValue family sharing
the given record and counter addresses. -/
def svDestroyN (st : SVState) (v : SVRef) : Nat → SVState
  | 0 => st
  | n + 1 => svDestroyN (svDestroy st v) v n

/-- Heap cell owned by a persistent Value: a copied Object or Callable
wrapper allocated with new. -/
inductive HCell where
  | objCell (o : Object)
  | callCell (c : Callable)
deriving DecidableEq

/-- Host heap for the owned wrapper copies of persistent Values: allocated
cells keyed by address, and the next fresh address. -/
structure VHeap where
  cells : List (Nat × HCell)
  next : Nat
deriving DecidableEq

/-- Well-formed heap: every allocated address is below the next fresh one. -/
def VHeap.wfHeap (h : VHeap) : Prop := ∀ p ∈ h.cells, p.1 < h.next

/-- Allocation with new: a fresh cell at the next address. -/
def valloc (h : VHeap) (c : HCell) : VHeap × Nat :=
  (⟨(h.next, c) :: h.cells, h.next + 1⟩, h.next)

/-- Payload of a heap-level persistent Value: inline scalars and the
Element pointer, or the address of an owned wrapper copy for the Object
and Callable tags. -/
inductive HData where
  | hInteger (i : ℤ)
  | hNumber (n : ℚ)
  | hPtr (p : Nat)
  | hElement (e : Option Nat)
deriving DecidableEq

/-- Heap-level persistent Value: the tag and the payload slot, with Object
and Callable payloads held through a heap address. -/
structure HValue where
  m_type : Stored
  m_data : HData
deriving DecidableEq

/-- Value copy constructor at the heap level: scalars and the Element
pointer are copied inline; an Object or Callable payload is dereferenced
and a fresh owned copy of the wrapper is allocated. The result is none
when the payload slot does not match the tag or the pointer is dangling,
situations the source constructors never produce. -/
def hCopy (h : VHeap) (v : HValue) : Option (VHeap × HValue) :=
  match v.m_type, v.m_data with
  | .boolean, .hInteger i => some (h, ⟨.boolean, .hInteger i⟩)
  | .integer, .hInteger i => some (h, ⟨.integer, .hInteger i⟩)
  | .double, .hNumber n => some (h, ⟨.double, .hNumber n⟩)
  | .object, .hPtr p =>
    match lookupKey h.cells p with
    | some (.objCell o) =>
      some ((valloc h (.objCell o)).1, ⟨.object, .hPtr (valloc h (.objCell o)).2⟩)
    | _ => none
  | .callable, .hPtr p =>
    match lookupKey h.cells p with
    | some (.callCell c) =>
      some ((valloc h (.callCell c)).1, ⟨.callable, .hPtr (valloc h (.callCell c)).2⟩)
    | _ => none
  | .element, .hElement e => some (h, ⟨.element, .hElement e⟩)
  | _, _ => none

/-- Value destructor at the heap level: only an Object or Callable tagged
Value frees its owned wrapper cell; every other tag leaves the heap
untouched. -/
def hDestroy (h : VHeap) (v : HValue) : VHeap :=
  match v.m_type, v.m_data with
  | .object, .hPtr p => ⟨removeKey h.cells p, h.next⟩
  | .callable, .hPtr p => ⟨removeKey h.cells p, h.next⟩
  | _, _ => h

/-- Value copy assignment at the heap level: the target takes the tag of
the source and its payload slot is overwritten by the same switch the copy
constructor runs, so an Object or Callable source is dereferenced and a
fresh owned copy of its wrapper is allocated for the target. The old
payload of the target is not freed by the source assignment operator (its
body contains no delete), so the heap is only ever extended here: the cell
the target owned before, and every other allocated cell, stay allocated.
The result is none exactly where the copy constructor model is. -/
def hAssign (h : VHeap) (tgt src : HValue) : Option (VHeap × HValue) :=
  match src.m_type, src.m_data with
  | .boolean, .hInteger i => some (h, ⟨.boolean, .hInteger i⟩)
  | .integer, .hInteger i => some (h, ⟨.integer, .hInteger i⟩)
  | .double, .hNumber n => some (h, ⟨.double, .hNumber n⟩)
  | .object, .hPtr p =>
    match lookupKey h.cells p with
    | some (.objCell o) =>
      some ((valloc h (.objCell o)).1, ⟨.object, .hPtr (valloc h (.objCell o)).2⟩)
    | _ => none
  | .callable, .hPtr p =>
    match lookupKey h.cells p with
    | some (.callCell c) =>
      some ((valloc h (.callCell c)).1, ⟨.callable, .hPtr (valloc h (.callCell c)).2⟩)
    | _ => none
  | .element, .hElement e => some (h, ⟨.element, .hElement e⟩)
  | _, _ => none

theorem lookupKey_set_same {β : Type} {l : List (Nat × β)} {k : Nat} {x : β} (v : β)
    (h : lookupKey l k = some x) : lookupKey (setKey l k v) k = some v := by
  induction l with
  | nil => simp [lookupKey] at h
  | cons p t ih =>
    obtain ⟨a, b⟩ := p
    by_cases hk : a = k
    · subst hk
      simp only [setKey]
      simp [lookupKey]
    · simp only [lookupKey, hk, if_false] at h
      simp only [setKey]
      rw [if_neg hk]
      simp [lookupKey, hk, ih h]

theorem lookupKey_remove_self {β : Type} (l : List (Nat × β)) (k : Nat) :
    lookupKey (removeKey l k) k = none := by
  induction l with
  | nil => rfl
  | cons p t ih =>
    obtain ⟨a, b⟩ := p
    by_cases hk : a = k
    · simpa [removeKey, hk] using ih
    · simpa [removeKey, lookupKey, hk] using ih

theorem lookupKey_remove_other {β : Type} (l : List (Nat × β)) (k k' : Nat)
    (h : k ≠ k') : lookupKey (removeKey l k) k' = lookupKey l k' := by
  induction l with
  | nil => rfl
  | cons p t ih =>
    obtain ⟨a, b⟩ := p
    by_cases hk : a = k
    · subst hk
      simpa [removeKey, lookupKey, h] using ih
    · by_cases hk' : a = k'
      · subst hk'
        simp [removeKey, lookupKey, hk]
      · simpa [removeKey, lookupKey, hk, hk'] using ih

theorem lookupKey_mem {β : Type} {l : List (Nat × β)} {k : Nat} {x : β}
    (h : lookupKey l k = some x) : (k, x) ∈ l := by
  induction l with
  | nil => simp [lookupKey] at h
  | cons p t ih =>
    obtain ⟨a, b⟩ := p
    by_cases hk : a = k
    · subst hk
      simp [lookupKey] at h
      simp [h]
    · simp [lookupKey, hk] at h
      exact List.mem_cons_of_mem _ (ih h)

theorem svDestroyN_succ_last (v : SVRef) (n : Nat) :
    ∀ st : SVState, svDestroyN st v (n + 1) = svDestroy (svDestroyN st v n) v := by
  induction n with
  | zero => intro st; rfl
  | succ m ih =>
    intro st
    show svDestroyN (svDestroy st v) v (m + 1) = _
    rw [ih (svDestroy st v)]
    rfl

theorem svDestroyN_run (v : SVRef) (h : V8) (k : Nat) :
    ∀ st : SVState, lookupKey st.recs v.m_d = some h →
      lookupKey st.refs v.m_ref = some ((k : ℤ) + 1) →
      lookupKey (svDestroyN st v k).recs v.m_d = some h ∧
        lookupKey (svDestroyN st v k).refs v.m_ref = some 1 := by
  induction k with
  | zero =>
    intro st hrec href
    exact ⟨hrec, by simpa using href⟩
  | succ m ih =>
    intro st hrec href
    show lookupKey (svDestroyN (svDestroy st v) v m).recs v.m_d = some h ∧ _
    have hc : ((lookupKey st.refs v.m_ref).getD 0 - 1 : ℤ) = (m : ℤ) + 1 := by
      rw [href, Option.getD_some]; push_cast; ring
    have hne : ((lookupKey st.refs v.m_ref).getD 0 - 1 : ℤ) ≠ 0 := by
      rw [hc]; positivity
    have hst : svDestroy st v
        = ⟨st.recs, setKey st.refs v.m_ref ((lookupKey st.refs v.m_ref).getD 0 - 1)⟩ := by
      simp [svDestroy, hne]
    refine ih (svDestroy st v) ?_ ?_
    · rw [hst]; exact hrec
    · rw [hst]
      simpa [hc] using lookupKey_set_same ((lookupKey st.refs v.m_ref).getD 0 - 1) href

/-- C10: Self assignment of a ScopedValue is a no-op: the address guard of
the assignment operator makes the state (handle records, counters, counter
values) and the instance itself unchanged, for every shared state and so
for every reference count including one; in particular no free of the
shared pair occurs. -/
theorem svAssign_self (st : SVState) (v : SVRef) : svAssign st v v = (st, v) := by
  simp [svAssign]

/-- C4: With the shared counter at N and the record allocated, a copy
increments the counter by one without touching the records; destroying
N - 1 of the N live copies leaves the shared record allocated and the
counter at one; destroying the last copy frees the record and the counter
exactly then, and both lookups fail afterwards. -/
theorem scopedValue_refcount (st : SVState) (v : SVRef) (a : Nat) (h : V8) (N : Nat)
    (hrec : lookupKey st.recs v.m_d = some h)
    (href : lookupKey st.refs v.m_ref = some (N : ℤ))
    (hN : 1 ≤ N) :
    (lookupKey (svCopy st v a).1.refs v.m_ref = some ((N : ℤ) + 1)
        ∧ (svCopy st v a).1.recs = st.recs)
    ∧ (lookupKey (svDestroyN st v (N - 1)).recs v.m_d = some h
        ∧ lookupKey (svDestroyN st v (N - 1)).refs v.m_ref = some 1)
    ∧ lookupKey (svDestroyN st v N).recs v.m_d = none
    ∧ lookupKey (svDestroyN st v N).refs v.m_ref = none := by
  obtain ⟨M, rfl⟩ : ∃ M, N = M + 1 := ⟨N - 1, by omega⟩
  have hrun := svDestroyN_run v h M st hrec (by simpa using href)
  have hlast : svDestroyN st v (M + 1) = svDestroy (svDestroyN st v M) v :=
    svDestroyN_succ_last v M st
  have hzero : ((lookupKey (svDestroyN st v M).refs v.m_ref).getD 0 - 1 : ℤ) = 0 := by
    rw [hrun.2, Option.getD_some]; ring
  have hfree : svDestroy (svDestroyN st v M) v
      = ⟨removeKey (svDestroyN st v M).recs v.m_d,
         removeKey (svDestroyN st v M).refs v.m_ref⟩ := by
    simp [svDestroy, hzero]
  refine ⟨⟨?_, rfl⟩, by simpa using hrun, ?_, ?_⟩
  · have hset := lookupKey_set_same ((lookupKey st.refs v.m_ref).getD 0 + 1) href
    simpa [svCopy, href, Option.getD_some] using hset
  · rw [hlast, hfree]
    exact lookupKey_remove_self _ _
  · rw [hlast, hfree]
    exact lookupKey_remove_self _ _

/-- Witness for C4 at a concrete state: one record at address 0, counter at
address 0 holding 3 live copies. -/
theorem scopedValue_refcount_witness :
    (lookupKey (svCopy ⟨[(0, V8.undefined)], [(0, 3)]⟩ ⟨5, 0, 0⟩ 6).1.refs 0 = some 4
        ∧ (svCopy ⟨[(0, V8.undefined)], [(0, 3)]⟩ ⟨5, 0, 0⟩ 6).1.recs = [(0, V8.undefined)])
    ∧ (lookupKey (svDestroyN ⟨[(0, V8.undefined)], [(0, 3)]⟩ ⟨5, 0, 0⟩ 2).recs 0
          = some V8.undefined
        ∧ lookupKey (svDestroyN ⟨[(0, V8.undefined)], [(0, 3)]⟩ ⟨5, 0, 0⟩ 2).refs 0 = some 1)
    ∧ lookupKey (svDestroyN ⟨[(0, V8.undefined)], [(0, 3)]⟩ ⟨5, 0, 0⟩ 3).recs 0 = none
    ∧ lookupKey (svDestroyN ⟨[(0, V8.undefined)], [(0, 3)]⟩ ⟨5, 0, 0⟩ 3).refs 0 = none := by
  have := scopedValue_refcount ⟨[(0, V8.undefined)], [(0, 3)]⟩ ⟨5, 0, 0⟩ 6 V8.undefined 3
    (by rfl) (by rfl) (by omega)
  simpa using this

theorem lookupKey_lt_of_wf {h : VHeap} {p : Nat} {c : HCell}
    (hwf : h.wfHeap) (hc : lookupKey h.cells p = some c) : p < h.next :=
  hwf (p, c) (lookupKey_mem hc)

/-- C8: Copying or copy-assigning a Value tagged Object or Callable
allocates a fresh owned cell holding the same wrapper (the assignment
result does not depend on the target and frees nothing, so every cell
allocated before it, the old cell of the target included, stays
allocated); the fresh address differs from the address owned by the
original, so destroying the original (which frees exactly its own cell)
leaves the cell of the copy or assignee allocated and readable with the
copied payload, and destroying the copy or assignee frees exactly the
fresh cell and leaves the cell of the original, so each owning Value
frees its own distinct cell at most once; and destroying a Value of any
other tag leaves the heap untouched, so only an Object or Callable tagged
Value frees heap memory. -/
theorem value_copy_ownership (h : VHeap) (p q : Nat) (o : Object) (c : Callable)
    (hwf : h.wfHeap)
    (hop : lookupKey h.cells p = some (.objCell o))
    (hcq : lookupKey h.cells q = some (.callCell c)) :
    (hCopy h ⟨.object, .hPtr p⟩
        = some (⟨(h.next, .objCell o) :: h.cells, h.next + 1⟩, ⟨.object, .hPtr h.next⟩)
      ∧ h.next ≠ p
      ∧ lookupKey
          (hDestroy ⟨(h.next, .objCell o) :: h.cells, h.next + 1⟩ ⟨.object, .hPtr p⟩).cells
          h.next = some (.objCell o)
      ∧ lookupKey
          (hDestroy ⟨(h.next, .objCell o) :: h.cells, h.next + 1⟩ ⟨.object, .hPtr p⟩).cells
          p = none)
    ∧ (hCopy h ⟨.callable, .hPtr q⟩
        = some (⟨(h.next, .callCell c) :: h.cells, h.next + 1⟩, ⟨.callable, .hPtr h.next⟩)
      ∧ h.next ≠ q
      ∧ lookupKey
          (hDestroy ⟨(h.next, .callCell c) :: h.cells, h.next + 1⟩ ⟨.callable, .hPtr q⟩).cells
          h.next = some (.callCell c)
      ∧ lookupKey
          (hDestroy ⟨(h.next, .callCell c) :: h.cells, h.next + 1⟩ ⟨.callable, .hPtr q⟩).cells
          q = none)
    ∧ (∀ tgt : HValue, hAssign h tgt ⟨.object, .hPtr p⟩
        = some (⟨(h.next, .objCell o) :: h.cells, h.next + 1⟩, ⟨.object, .hPtr h.next⟩))
    ∧ (∀ tgt : HValue, hAssign h tgt ⟨.callable, .hPtr q⟩
        = some (⟨(h.next, .callCell c) :: h.cells, h.next + 1⟩, ⟨.callable, .hPtr h.next⟩))
    ∧ (lookupKey
          (hDestroy ⟨(h.next, .objCell o) :: h.cells, h.next + 1⟩
            ⟨.object, .hPtr h.next⟩).cells p = some (.objCell o)
      ∧ lookupKey
          (hDestroy ⟨(h.next, .objCell o) :: h.cells, h.next + 1⟩
            ⟨.object, .hPtr h.next⟩).cells h.next = none)
    ∧ (lookupKey
          (hDestroy ⟨(h.next, .callCell c) :: h.cells, h.next + 1⟩
            ⟨.callable, .hPtr h.next⟩).cells q = some (.callCell c)
      ∧ lookupKey
          (hDestroy ⟨(h.next, .callCell c) :: h.cells, h.next + 1⟩
            ⟨.callable, .hPtr h.next⟩).cells h.next = none)
    ∧ (∀ (g : VHeap) (v : HValue), v.m_type ≠ .object → v.m_type ≠ .callable →
        hDestroy g v = g) := by
  have hpn : p < h.next := lookupKey_lt_of_wf hwf hop
  have hqn : q < h.next := lookupKey_lt_of_wf hwf hcq
  refine ⟨⟨?_, by omega, ?_, ?_⟩, ⟨?_, by omega, ?_, ?_⟩,
    fun tgt => ?_, fun tgt => ?_, ⟨?_, ?_⟩, ⟨?_, ?_⟩, ?_⟩
  · simp [hCopy, valloc, hop]
  · have hne : p ≠ h.next := by omega
    simp only [hDestroy, removeKey]
    rw [if_neg (by omega : h.next ≠ p)]
    simp [lookupKey]
  · simp only [hDestroy, removeKey]
    rw [if_neg (by omega : h.next ≠ p)]
    simp only [lookupKey]
    rw [if_neg (by omega : ¬ h.next = p)]
    exact lookupKey_remove_self h.cells p
  · simp [hCopy, valloc, hcq]
  · simp only [hDestroy, removeKey]
    rw [if_neg (by omega : h.next ≠ q)]
    simp [lookupKey]
  · simp only [hDestroy, removeKey]
    rw [if_neg (by omega : h.next ≠ q)]
    simp only [lookupKey]
    rw [if_neg (by omega : ¬ h.next = q)]
    exact lookupKey_remove_self h.cells q
  · simp [hAssign, valloc, hop]
  · simp [hAssign, valloc, hcq]
  · simp only [hDestroy, removeKey, eq_self_iff_true, if_true]
    rw [lookupKey_remove_other h.cells h.next p (by omega)]
    exact hop
  · simp only [hDestroy, removeKey, eq_self_iff_true, if_true]
    exact lookupKey_remove_self h.cells h.next
  · simp only [hDestroy, removeKey, eq_self_iff_true, if_true]
    rw [lookupKey_remove_other h.cells h.next q (by omega)]
    exact hcq
  · simp only [hDestroy, removeKey, eq_self_iff_true, if_true]
    exact lookupKey_remove_self h.cells h.next
  · intro g v hno hnc
    obtain ⟨t, d⟩ := v
    cases t <;> cases d <;> simp_all [hDestroy]

/-- Witness for C8 at a concrete heap holding one Object cell and one
Callable cell, with the copy, the copy assignment onto a Boolean tagged
target, and the destruction of the original exercised concretely. -/
theorem value_copy_ownership_witness :
    (hCopy ⟨[(0, .objCell ⟨V8.vnull⟩), (1, .callCell ⟨V8.undefined⟩)], 2⟩
        ⟨.object, .hPtr 0⟩
      = some (⟨[(2, .objCell ⟨V8.vnull⟩), (0, .objCell ⟨V8.vnull⟩),
                (1, .callCell ⟨V8.undefined⟩)], 3⟩, ⟨.object, .hPtr 2⟩))
    ∧ (hAssign ⟨[(0, .objCell ⟨V8.vnull⟩), (1, .callCell ⟨V8.undefined⟩)], 2⟩
        ⟨.boolean, .hInteger 0⟩ ⟨.object, .hPtr 0⟩
      = some (⟨[(2, .objCell ⟨V8.vnull⟩), (0, .objCell ⟨V8.vnull⟩),
                (1, .callCell ⟨V8.undefined⟩)], 3⟩, ⟨.object, .hPtr 2⟩))
    ∧ lookupKey
        (hDestroy ⟨[(2, .objCell ⟨V8.vnull⟩), (0, .objCell ⟨V8.vnull⟩),
                    (1, .callCell ⟨V8.undefined⟩)], 3⟩ ⟨.object, .hPtr 0⟩).cells 2
      = some (.objCell ⟨V8.vnull⟩)
    ∧ lookupKey
        (hDestroy ⟨[(2, .objCell ⟨V8.vnull⟩), (0, .objCell ⟨V8.vnull⟩),
                    (1, .callCell ⟨V8.undefined⟩)], 3⟩ ⟨.object, .hPtr 0⟩).cells 0
      = none := by
  have hw := value_copy_ownership
    ⟨[(0, .objCell ⟨V8.vnull⟩), (1, .callCell ⟨V8.undefined⟩)], 2⟩ 0 1
    ⟨V8.vnull⟩ ⟨V8.undefined⟩
    (by intro x hx
        simp only [List.mem_cons, List.not_mem_nil, or_false] at hx
        rcases hx with rfl | rfl <;> decide)
    (by rfl) (by rfl)
  simpa using ⟨hw.1.1, hw.2.2.1 ⟨.boolean, .hInteger 0⟩, hw.1.2.2.1, hw.1.2.2.2⟩

theorem veq_refl (v : Value) : Value.veq v v = true := by
  cases v <;> simp [Value.veq, Value.type]

theorem wrap32_eq_self {i : ℤ} (h1 : -2 ^ 31 ≤ i) (h2 : i < 2 ^ 31) :
    Value.wrap32 i = i := by
  unfold Value.wrap32
  have e1 : (2 : ℤ) ^ 31 = 2147483648 := by norm_num
  have e2 : (2 : ℤ) ^ 32 = 4294967296 := by norm_num
  rw [e1, e2] at *
  omega

theorem ratTrunc_intCast (i : ℤ) : V8.ratTrunc (i : ℚ) = i := by
  unfold V8.ratTrunc
  by_cases h : (i : ℚ) < 0
  · rw [if_pos h]
    have hcast : (-(i : ℚ)) = ((-i : ℤ) : ℚ) := by push_cast; ring
    rw [hcast, Int.floor_intCast]
    ring
  · rw [if_neg h, Int.floor_intCast]

/-- C5: A default constructed Value is an Element tagged null pointer, and
isNull holds exactly when the tag is Element and the Element payload slot
holds the null pointer; no other tag is ever null. -/
theorem value_null_iff :
    Value.defaultValue = Value.element none
    ∧ (∀ v : Value,
        v.isNull = true ↔ v.type = Stored.element ∧ v.mdata = ValueData.asElement none) := by
  refine ⟨rfl, fun v => ?_⟩
  cases v
  case element e => cases e <;> simp [Value.isNull, Value.type, Value.mdata]
  all_goals simp [Value.isNull, Value.type, Value.mdata]

/-- C9 counterexample: the ScopedValue built from the null Element pointer
wraps the undefined handle, and isNull (which tests the null shape, not
the undefined shape) returns false on it, contradicting the claim that it
returns true. -/
theorem scoped_null_element_counterexample :
    ¬ (Scoped.isNull (Scoped.fromElement none) = true
        ∧ Scoped.toElement (Scoped.fromElement none) = Except.ok none) := by
  intro hcl
  have hfalse : (false : Bool) = true := hcl.1
  exact Bool.noConfusion hfalse

/-- C9 amended: the ScopedValue built from the null Element pointer wraps
the undefined handle; isNull returns false on it (undefined is not the
null shape) while toElement still returns the null pointer. -/
theorem scoped_null_element_amended :
    Scoped.fromElement none = V8.undefined
    ∧ Scoped.isNull (Scoped.fromElement none) = false
    ∧ Scoped.toElement (Scoped.fromElement none) = Except.ok none :=
  ⟨rfl, rfl, rfl⟩

/-- C3 counterexample: at the concrete non-element handle number 1 the
generic Element conversion does not unwind to the native caller: its
native result channel carries the normally returned null pointer, while
the InvalidElement error appears only on the engine reporting channel. -/
theorem convert_element_counterexample :
    (convertFromV8Element (V8.number 1)).2 = Except.ok none
    ∧ (convertFromV8Element (V8.number 1)).1
        = [Err.invalidElement "Given value is not an Element"] :=
  ⟨rfl, rfl⟩

/-- C3 amended: for every handle that is not element shaped and not null
or undefined, the generic Element conversion reports exactly one
InvalidElement error through the engine error channel and returns the null
Element pointer to the native caller without unwinding. -/
theorem convert_element_amended (h : V8)
    (h1 : Scoped.isElement h = false) (h2 : V8.isNullOrUndefined h = false) :
    convertFromV8Element h
      = ([Err.invalidElement "Given value is not an Element"], Except.ok none) := by
  cases h <;> simp_all [Scoped.isElement, V8.isObjectV8, V8.internalFieldCount,
    V8.isNullOrUndefined, convertFromV8Element]

/-- Witness for C3 amended at the string handle. -/
theorem convert_element_amended_witness :
    convertFromV8Element (V8.string "x")
      = ([Err.invalidElement "Given value is not an Element"], Except.ok none) :=
  convert_element_amended (V8.string "x") rfl rfl

/-- C6: toObject boxes a handle that is string shaped but not object
shaped into a string object wrapper and succeeds, and fails with
TypeMismatch on an element shaped handle. -/
theorem toObject_string_element (h : V8) :
    (Scoped.isString h = true → Scoped.isObject h = false →
      ∃ s, h = V8.string s ∧ Scoped.toObject h = Except.ok ⟨V8.stringObject s⟩)
    ∧ (Scoped.isElement h = true →
      Scoped.toObject h = Except.error (Err.typeMismatch "Object of Element type")) := by
  cases h <;> simp [Scoped.isString, Scoped.isObject, Scoped.isElement, Scoped.toObject,
    V8.isStringV8, V8.isStringObjectV8, V8.isObjectV8, V8.internalFieldCount]

/-- Witness for C6 at a concrete string handle and a concrete element
handle. -/
theorem toObject_string_element_witness :
    Scoped.toObject (V8.string "a") = Except.ok ⟨V8.stringObject "a"⟩
    ∧ Scoped.toObject (V8.elementObject 0)
        = Except.error (Err.typeMismatch "Object of Element type") := by
  obtain ⟨s, hs, ho⟩ := (toObject_string_element (V8.string "a")).1 rfl rfl
  refine ⟨?_, (toObject_string_element (V8.elementObject 0)).2 rfl⟩
  injection hs with h
  subst h
  exact ho

/-- C7: toElement returns the null pointer on a null or undefined handle,
unwraps the Element pointer of the marker slot on an element wrapper, and
fails with InvalidCast on every other handle, the ones lacking the marker
slot. -/
theorem toElement_cases :
    (∀ h : V8, V8.isNullOrUndefined h = true → Scoped.toElement h = Except.ok none)
    ∧ (∀ e : Nat, Scoped.toElement (V8.elementObject e) = Except.ok (some e))
    ∧ (∀ h : V8, V8.isNullOrUndefined h = false → Scoped.isElement h = false →
        Scoped.toElement h = Except.error (Err.invalidCast "Element")) := by
  refine ⟨fun h hh => ?_, fun e => rfl, fun h h1 h2 => ?_⟩
  · cases h <;> simp_all [V8.isNullOrUndefined, Scoped.toElement]
  · cases h <;> simp_all [V8.isNullOrUndefined, Scoped.toElement, Scoped.isElement,
      V8.isObjectV8, V8.internalFieldCount, elementFromObject]

/-- Witness for C7 at the undefined handle, a concrete element wrapper and
a concrete number handle. -/
theorem toElement_cases_witness :
    Scoped.toElement V8.undefined = Except.ok none
    ∧ Scoped.toElement (V8.elementObject 4) = Except.ok (some 4)
    ∧ Scoped.toElement (V8.number 7) = Except.error (Err.invalidCast "Element") :=
  ⟨toElement_cases.1 V8.undefined rfl, toElement_cases.2.1 4,
    toElement_cases.2.2 (V8.number 7) rfl rfl⟩

/-- C1 counterexample: an Integer tagged Value constructed from the int64
payload 2147483648 (one above the int32 range) has a matching tag for
asInt32, yet asInt32 does not return the stored payload unchanged: the C
style cast truncates it to -2147483648. -/
theorem value_accessor_counterexample :
    Value.asInt32 (Value.ofInt64 2147483648) ≠ Except.ok (2147483648 : ℤ) := by
  intro h
  have h2 : Value.wrap32 2147483648 = 2147483648 := Except.ok.inj h
  unfold Value.wrap32 at h2
  norm_num at h2

/-- C1 amended: every accessor fails with its operation-specific
TypeMismatch error on every Value whose tag does not match, asNumber
accepts both the Double and the Integer tag (widening the integer) and
fails on every other tag, and each matching accessor returns the stored
payload unchanged, except that asInt32 returns the stored Integer payload
truncated to 32 signed bits, which is the payload itself exactly when that
payload lies in the int32 range. -/
theorem value_accessors_amended :
    (∀ v : Value, v.type ≠ Stored.boolean
        → v.asBool = Except.error (Err.typeMismatch "Boolean"))
    ∧ (∀ v : Value, v.type ≠ Stored.integer
        → v.asInt32 = Except.error (Err.typeMismatch "Int32"))
    ∧ (∀ v : Value, v.type ≠ Stored.integer
        → v.asInt64 = Except.error (Err.typeMismatch "Int64"))
    ∧ (∀ v : Value, v.type ≠ Stored.double → v.type ≠ Stored.integer
        → v.asNumber = Except.error (Err.typeMismatch "Number"))
    ∧ (∀ v : Value, v.type ≠ Stored.object
        → v.asObject = Except.error (Err.typeMismatch "Object"))
    ∧ (∀ v : Value, v.type ≠ Stored.callable
        → v.asCallable = Except.error (Err.typeMismatch "Callable"))
    ∧ (∀ v : Value, v.type ≠ Stored.element
        → v.asElement = Except.error (Err.typeMismatch "Element"))
    ∧ (∀ b : Bool, (Value.ofBool b).asBool = Except.ok b)
    ∧ (∀ i : ℤ, (Value.ofInt64 i).asInt64 = Except.ok i)
    ∧ (∀ i : ℤ, (Value.ofInt64 i).asInt32 = Except.ok (Value.wrap32 i))
    ∧ (∀ i : ℤ, -2 ^ 31 ≤ i → i < 2 ^ 31 → (Value.ofInt64 i).asInt32 = Except.ok i)
    ∧ (∀ i : ℤ, (Value.ofInt64 i).asNumber = Except.ok (i : ℚ))
    ∧ (∀ n : ℚ, (Value.ofNumber n).asNumber = Except.ok n)
    ∧ (∀ o : Object, (Value.ofObject o).asObject = Except.ok o)
    ∧ (∀ c : Callable, (Value.ofCallable c).asCallable = Except.ok c)
    ∧ (∀ e : Option Nat, (Value.ofElement e).asElement = Except.ok e) := by
  refine ⟨fun v hv => ?_, fun v hv => ?_, fun v hv => ?_, fun v hv1 hv2 => ?_,
    fun v hv => ?_, fun v hv => ?_, fun v hv => ?_,
    fun b => by cases b <;> rfl, fun i => rfl, fun i => rfl,
    fun i h1 h2 => ?_, fun i => rfl, fun n => rfl, fun o => rfl, fun c => rfl,
    fun e => rfl⟩
  · cases v <;> simp_all [Value.type, Value.asBool]
  · cases v <;> simp_all [Value.type, Value.asInt32]
  · cases v <;> simp_all [Value.type, Value.asInt64]
  · cases v <;> simp_all [Value.type, Value.asNumber]
  · cases v <;> simp_all [Value.type, Value.asObject]
  · cases v <;> simp_all [Value.type, Value.asCallable]
  · cases v <;> simp_all [Value.type, Value.asElement]
  · simp [Value.ofInt64, Value.asInt32, wrap32_eq_self h1 h2]

/-- Witness for C1 amended: a Double tagged Value rejects asBool, and an
in-range Integer tagged Value returns its payload from asInt32. -/
theorem value_accessors_amended_witness :
    (Value.ofNumber 2).asBool = Except.error (Err.typeMismatch "Boolean")
    ∧ (Value.ofInt64 42).asInt32 = Except.ok 42 :=
  ⟨value_accessors_amended.1 (Value.ofNumber 2) (by decide),
    value_accessors_amended.2.2.2.2.2.2.2.2.2.2.1 42 (by norm_num) (by norm_num)⟩

/-- C2 counterexample: the Double tagged Value holding 5 round trips
through a ScopedValue into the Integer tagged Value holding 5, because the
engine classifies the number 5 as an int32; the result is not equal to the
original under the Value equality, which requires equal tags. -/
theorem roundtrip_counterexample :
    Scoped.toValue (Scoped.fromValue (Value.ofNumber 5)) = Except.ok (Value.ofInt32 5)
    ∧ Value.veq (Value.ofInt32 5) (Value.ofNumber 5) = false := by
  constructor
  · have hint : Scoped.isInt (V8.number 5) = true := by
      simp [Scoped.isInt, V8.isInt32V8]
    have hbool : Scoped.isBool (V8.number 5) = false := rfl
    show Scoped.toValue (V8.number 5) = Except.ok (Value.ofInt32 5)
    rw [Scoped.toValue]
    rw [if_neg (by simp [hbool]), if_pos (by simp [hint])]
    show Except.ok (Value.ofInt32 (Value.wrap32 (V8.ratTrunc (5 : ℚ)))) = _
    have h5 : V8.ratTrunc ((5 : ℤ) : ℚ) = 5 := ratTrunc_intCast 5
    norm_num at h5
    rw [h5, wrap32_eq_self (by norm_num) (by norm_num)]
  · rfl

/-- C2 amended: the round trip Value to ScopedValue to toValue yields a
Value equal to the original under the Value equality for every Boolean
payload, every Element payload (null included), every Integer payload in
the int32 range, and every Double payload that is not an integer in the
int32 range; an Integer payload outside the int32 range is truncated by
the guest integer constructor, and a Double payload that is an int32 comes
back Integer tagged. -/
theorem roundtrip_amended :
    (∀ b : Bool, ∃ w, Scoped.toValue (Scoped.fromValue (Value.ofBool b)) = Except.ok w
        ∧ Value.veq w (Value.ofBool b) = true)
    ∧ (∀ i : ℤ, -2 ^ 31 ≤ i → i < 2 ^ 31 →
        ∃ w, Scoped.toValue (Scoped.fromValue (Value.ofInt64 i)) = Except.ok w
          ∧ Value.veq w (Value.ofInt64 i) = true)
    ∧ (∀ n : ℚ, ¬ (n.den = 1 ∧ -2 ^ 31 ≤ n.num ∧ n.num < 2 ^ 31) →
        ∃ w, Scoped.toValue (Scoped.fromValue (Value.ofNumber n)) = Except.ok w
          ∧ Value.veq w (Value.ofNumber n) = true)
    ∧ (∀ e : Option Nat,
        ∃ w, Scoped.toValue (Scoped.fromValue (Value.ofElement e)) = Except.ok w
          ∧ Value.veq w (Value.ofElement e) = true) := by
  refine ⟨fun b => ?_, fun i h1 h2 => ?_, fun n hn => ?_, fun e => ?_⟩
  · cases b <;> exact ⟨_, rfl, rfl⟩
  · refine ⟨Value.ofInt64 i, ?_, veq_refl _⟩
    have hw : Value.wrap32 i = i := wrap32_eq_self h1 h2
    have hfv : Scoped.fromValue (Value.ofInt64 i) = V8.number ((i : ℤ) : ℚ) := by
      simp [Value.ofInt64, Scoped.fromValue, v8IntegerNew, hw]
    rw [hfv]
    have hint : Scoped.isInt (V8.number ((i : ℤ) : ℚ)) = true := by
      simp [Scoped.isInt, V8.isInt32V8, Rat.den_intCast, Rat.num_intCast]
      exact ⟨h1, h2⟩
    rw [Scoped.toValue]
    rw [if_neg (by simp [Scoped.isBool, V8.isBooleanV8]), if_pos (by simp [hint])]
    show Except.ok (Value.ofInt32 (Value.wrap32 (V8.ratTrunc ((i : ℤ) : ℚ)))) = _
    rw [ratTrunc_intCast, hw]
    rfl
  · refine ⟨Value.ofNumber n, ?_, veq_refl _⟩
    have hint : Scoped.isInt (V8.number n) = false := by
      simp only [Scoped.isInt, V8.isInt32V8]
      simp only [Bool.and_eq_false_iff, beq_eq_false_iff_ne, ne_eq, decide_eq_false_iff_not,
        not_lt, not_le]
      by_cases hd : n.den = 1
      · by_cases hb : -2 ^ 31 ≤ n.num
        · have := fun hh => hn ⟨hd, hb, hh⟩
          right
          omega
        · left
          right
          omega
      · left
        left
        exact hd
    show Scoped.toValue (V8.number n) = _
    rw [Scoped.toValue]
    rw [if_neg (by simp [Scoped.isBool, V8.isBooleanV8]), if_neg (by simp [hint]),
      if_pos (by simp [Scoped.isNumber, V8.isNumberV8])]
    rfl
  · cases e <;> exact ⟨_, rfl, veq_refl _⟩

/-- Witness for C2 amended: the Integer payload 7 and the Double payload
1099511627776 (an integer outside the int32 range) both round trip. -/
theorem roundtrip_amended_witness :
    (∃ w, Scoped.toValue (Scoped.fromValue (Value.ofInt64 7)) = Except.ok w
        ∧ Value.veq w (Value.ofInt64 7) = true)
    ∧ (∃ w, Scoped.toValue (Scoped.fromValue (Value.ofNumber 1099511627776)) = Except.ok w
        ∧ Value.veq w (Value.ofNumber 1099511627776) = true) :=
  ⟨roundtrip_amended.2.1 7 (by norm_num) (by norm_num),
    roundtrip_amended.2.2.1 1099511627776 (by norm_num)⟩

end lvel
